import Mathlib

/-!
Option classification model (`go/apogee/options/model/enums.go`)

The Go source declares four defined types whose underlying type is `string`,
and one `const` block of named values per type.  A Go defined type over
`string` is nominal (values of two such types are not interchangeable) and
carries exactly one string; it is embedded here as a one-field structure.
The Go conversions `T(s)` and `string(v)` are the constructor and the
projection of that structure, and Go's `==` on such a type is equality of the
underlying strings.
-/

namespace Model

/-- Go: `type OptionType string`. -/
structure OptionType where
  val : String
deriving DecidableEq, Repr

/-- Go: `type OptionStyle string`. -/
structure OptionStyle where
  val : String
deriving DecidableEq, Repr

/-- Go: `type OptionExercise string`. -/
structure OptionExercise where
  val : String
deriving DecidableEq, Repr

/-- Go: `type OptionMoneyness string`. -/
structure OptionMoneyness where
  val : String
deriving DecidableEq, Repr

/-! ## The four `const` blocks -/

/-- Go: `OptionTypeCall OptionType = "call"`. -/
def OptionTypeCall : OptionType := ⟨"call"⟩

/-- Go: `OptionTypePut OptionType = "put"`. -/
def OptionTypePut : OptionType := ⟨"put"⟩

/-- Go: `OptionStyleAmerican OptionStyle = "american"`. -/
def OptionStyleAmerican : OptionStyle := ⟨"american"⟩

/-- Go: `OptionStyleEuropean OptionStyle = "european"`. -/
def OptionStyleEuropean : OptionStyle := ⟨"european"⟩

/-- Go: `OptionExerciseLong OptionExercise = "long"`. -/
def OptionExerciseLong : OptionExercise := ⟨"long"⟩

/-- Go: `OptionExerciseShort OptionExercise = "short"`. -/
def OptionExerciseShort : OptionExercise := ⟨"short"⟩

/-- Go: `OptionMoneynessInTheMoney OptionMoneyness = "ITM"`. -/
def OptionMoneynessInTheMoney : OptionMoneyness := ⟨"ITM"⟩

/-- Go: `OptionMoneynessOutOfTheMoney OptionMoneyness = "OTM"`. -/
def OptionMoneynessOutOfTheMoney : OptionMoneyness := ⟨"OTM"⟩

/-- Go: `OptionMoneynessAtTheMoney OptionMoneyness = "ATM"`. -/
def OptionMoneynessAtTheMoney : OptionMoneyness := ⟨"ATM"⟩

/-! ## Declared members, block by block, in source order -/

/-- The constants of the first `const` block (source lines 5-8). -/
def OptionType.declared : List OptionType :=
  [OptionTypeCall, OptionTypePut]

/-- The constants of the second `const` block (source lines 12-15). -/
def OptionStyle.declared : List OptionStyle :=
  [OptionStyleAmerican, OptionStyleEuropean]

/-- The constants of the third `const` block (source lines 19-22). -/
def OptionExercise.declared : List OptionExercise :=
  [OptionExerciseLong, OptionExerciseShort]

/-- The constants of the fourth `const` block (source lines 26-30). -/
def OptionMoneyness.declared : List OptionMoneyness :=
  [OptionMoneynessInTheMoney, OptionMoneynessOutOfTheMoney, OptionMoneynessAtTheMoney]

/-! ## Conversions of the Go language on a string-backed type -/

/-- Go: `string(v)` for `v OptionType`. -/
def OptionType.encode (v : OptionType) : String := v.val

/-- Go: `OptionType(s)` for `s string`. -/
def OptionType.decode (s : String) : OptionType := ⟨s⟩

/-- Go: `string(v)` for `v OptionStyle`. -/
def OptionStyle.encode (v : OptionStyle) : String := v.val

/-- Go: `OptionStyle(s)` for `s string`. -/
def OptionStyle.decode (s : String) : OptionStyle := ⟨s⟩

/-- Go: `string(v)` for `v OptionExercise`. -/
def OptionExercise.encode (v : OptionExercise) : String := v.val

/-- Go: `OptionExercise(s)` for `s string`. -/
def OptionExercise.decode (s : String) : OptionExercise := ⟨s⟩

/-- Go: `string(v)` for `v OptionMoneyness`. -/
def OptionMoneyness.encode (v : OptionMoneyness) : String := v.val

/-- Go: `OptionMoneyness(s)` for `s string`. -/
def OptionMoneyness.decode (s : String) : OptionMoneyness := ⟨s⟩

/-! ## Token sets -/

/-- Tokens of the `OptionType` constants, in source order. -/
def OptionType.tokens : List String := OptionType.declared.map OptionType.encode

/-- Tokens of the `OptionStyle` constants, in source order. -/
def OptionStyle.tokens : List String := OptionStyle.declared.map OptionStyle.encode

/-- Tokens of the `OptionExercise` constants, in source order. -/
def OptionExercise.tokens : List String := OptionExercise.declared.map OptionExercise.encode

/-- Tokens of the `OptionMoneyness` constants, in source order. -/
def OptionMoneyness.tokens : List String := OptionMoneyness.declared.map OptionMoneyness.encode

/-- The token lists of the four enumerations, one entry per enumeration. -/
def tokenSets : List (List String) :=
  [OptionType.tokens, OptionStyle.tokens, OptionExercise.tokens, OptionMoneyness.tokens]

/-- Every declared token of the file, in source order. -/
def allTokens : List String :=
  OptionType.tokens ++ OptionStyle.tokens ++ OptionExercise.tokens ++ OptionMoneyness.tokens

/-- Lower-casing of a token, character by character (the list form of
`String.toLower`, see `lower_eq_toLower`).  On ASCII text it agrees with Go's
`strings.ToLower`; every declared token is ASCII. -/
def lower (s : String) : String := ⟨s.data.map Char.toLower⟩

/-! ## Auxiliary facts -/

theorem lower_eq_toLower (s : String) : lower s = s.toLower := by
  simp [lower, String.toLower, String.map_eq]

theorem map_lower_eq (l : List String) : l.map lower = l.map String.toLower := by
  induction l with
  | nil => rfl
  | cons a t ih => simp [lower_eq_toLower, ih]

theorem allTokens_eq :
    allTokens = ["call", "put", "american", "european", "long", "short", "ITM", "OTM", "ATM"] := by
  decide

/-! ## The declared value sets -/

/-- C1: the constants of each of the four `const` blocks carry exactly the
tokens the specification lists, in the listed order, with nothing missing and
nothing extra: `call`, `put` for OptionType; `american`, `european` for
OptionStyle; `long`, `short` for OptionExercise; `ITM`, `OTM`, `ATM` for
OptionMoneyness; and each named constant carries its own literal. -/
theorem declared_tokens_exact :
    (OptionType.declared.map OptionType.encode = ["call", "put"]
      ∧ OptionStyle.declared.map OptionStyle.encode = ["american", "european"]
      ∧ OptionExercise.declared.map OptionExercise.encode = ["long", "short"]
      ∧ OptionMoneyness.declared.map OptionMoneyness.encode = ["ITM", "OTM", "ATM"])
    ∧ ((∀ s, s ∈ OptionType.tokens ↔ s = "call" ∨ s = "put")
      ∧ (∀ s, s ∈ OptionStyle.tokens ↔ s = "american" ∨ s = "european")
      ∧ (∀ s, s ∈ OptionExercise.tokens ↔ s = "long" ∨ s = "short")
      ∧ (∀ s, s ∈ OptionMoneyness.tokens ↔ s = "ITM" ∨ s = "OTM" ∨ s = "ATM"))
    ∧ (OptionTypeCall.encode = "call" ∧ OptionTypePut.encode = "put"
      ∧ OptionStyleAmerican.encode = "american" ∧ OptionStyleEuropean.encode = "european"
      ∧ OptionExerciseLong.encode = "long" ∧ OptionExerciseShort.encode = "short"
      ∧ OptionMoneynessInTheMoney.encode = "ITM"
      ∧ OptionMoneynessOutOfTheMoney.encode = "OTM"
      ∧ OptionMoneynessAtTheMoney.encode = "ATM") := by
  refine ⟨⟨rfl, rfl, rfl, rfl⟩, ⟨?_, ?_, ?_, ?_⟩, ⟨rfl, rfl, rfl, rfl, rfl, rfl, rfl, rfl, rfl⟩⟩
  · intro s
    simp [OptionType.tokens, OptionType.declared, OptionType.encode, OptionTypeCall,
      OptionTypePut]
  · intro s
    simp [OptionStyle.tokens, OptionStyle.declared, OptionStyle.encode, OptionStyleAmerican,
      OptionStyleEuropean]
  · intro s
    simp [OptionExercise.tokens, OptionExercise.declared, OptionExercise.encode,
      OptionExerciseLong, OptionExerciseShort]
  · intro s
    simp [OptionMoneyness.tokens, OptionMoneyness.declared, OptionMoneyness.encode,
      OptionMoneynessInTheMoney, OptionMoneynessOutOfTheMoney, OptionMoneynessAtTheMoney]

/-! ## Closedness -/

/-- C2 (as stated, refuted): the value `OptionStyle("bermudan")` is
constructed by the conversion, carries the string `bermudan`, and is neither
`OptionStyleAmerican` nor `OptionStyleEuropean`; hence not every value of type
OptionStyle is one of the two declared constants.  The same holds for the
other three types. -/
theorem closed_type_refuted :
    ((OptionStyle.decode "bermudan").encode = "bermudan"
      ∧ OptionStyle.decode "bermudan" ≠ OptionStyleAmerican
      ∧ OptionStyle.decode "bermudan" ≠ OptionStyleEuropean)
    ∧ ¬ (∀ v : OptionStyle, v = OptionStyleAmerican ∨ v = OptionStyleEuropean)
    ∧ ¬ (∀ v : OptionType, v = OptionTypeCall ∨ v = OptionTypePut)
    ∧ ¬ (∀ v : OptionExercise, v = OptionExerciseLong ∨ v = OptionExerciseShort)
    ∧ ¬ (∀ v : OptionMoneyness, v = OptionMoneynessInTheMoney
          ∨ v = OptionMoneynessOutOfTheMoney ∨ v = OptionMoneynessAtTheMoney) := by
  refine ⟨⟨rfl, by decide, by decide⟩, ?_, ?_, ?_, ?_⟩
  · intro h
    exact absurd (h (OptionStyle.decode "bermudan")) (by decide)
  · intro h
    exact absurd (h (OptionType.decode "bermudan")) (by decide)
  · intro h
    exact absurd (h (OptionExercise.decode "bermudan")) (by decide)
  · intro h
    exact absurd (h (OptionMoneyness.decode "bermudan")) (by decide)

/-- C2 (amended): each enumeration is a string-backed type with a fixed set of
declared constants.  A value of the type is one of the declared constants
exactly when its underlying string is one of the declared literals; the
conversion from string accepts every string and keeps it unchanged, so the
value built from `bermudan` exists and is no declared constant of any of the
four types. -/
theorem declared_iff_literal :
    (∀ v : OptionType, (v = OptionTypeCall ∨ v = OptionTypePut)
        ↔ (v.encode = "call" ∨ v.encode = "put"))
    ∧ (∀ v : OptionStyle, (v = OptionStyleAmerican ∨ v = OptionStyleEuropean)
        ↔ (v.encode = "american" ∨ v.encode = "european"))
    ∧ (∀ v : OptionExercise, (v = OptionExerciseLong ∨ v = OptionExerciseShort)
        ↔ (v.encode = "long" ∨ v.encode = "short"))
    ∧ (∀ v : OptionMoneyness,
        (v = OptionMoneynessInTheMoney ∨ v = OptionMoneynessOutOfTheMoney
          ∨ v = OptionMoneynessAtTheMoney)
        ↔ (v.encode = "ITM" ∨ v.encode = "OTM" ∨ v.encode = "ATM"))
    ∧ ((∀ s, (OptionType.decode s).encode = s) ∧ (∀ s, (OptionStyle.decode s).encode = s)
      ∧ (∀ s, (OptionExercise.decode s).encode = s)
      ∧ (∀ s, (OptionMoneyness.decode s).encode = s))
    ∧ (OptionType.decode "bermudan" ∉ OptionType.declared
      ∧ OptionStyle.decode "bermudan" ∉ OptionStyle.declared
      ∧ OptionExercise.decode "bermudan" ∉ OptionExercise.declared
      ∧ OptionMoneyness.decode "bermudan" ∉ OptionMoneyness.declared) := by
  refine ⟨?_, ?_, ?_, ?_, ⟨fun _ => rfl, fun _ => rfl, fun _ => rfl, fun _ => rfl⟩,
    ⟨by decide, by decide, by decide, by decide⟩⟩
  · rintro ⟨s⟩
    simp [OptionType.encode, OptionTypeCall, OptionTypePut]
  · rintro ⟨s⟩
    simp [OptionStyle.encode, OptionStyleAmerican, OptionStyleEuropean]
  · rintro ⟨s⟩
    simp [OptionExercise.encode, OptionExerciseLong, OptionExerciseShort]
  · rintro ⟨s⟩
    simp [OptionMoneyness.encode, OptionMoneynessInTheMoney, OptionMoneynessOutOfTheMoney,
      OptionMoneynessAtTheMoney]

/-! ## Round trip -/

/-- C3: encoding a value to its token and decoding the token gives the value
back, for every value and so for every declared member of each of the four
enumerations; decoding a token and encoding the result gives the token back;
and each declared member is what its literal decodes to and encodes to that
same literal (`call` decodes to OptionTypeCall, which encodes to `call`;
`short` decodes to OptionExerciseShort, which encodes to `short`). -/
theorem encode_decode_roundtrip :
    ((∀ m : OptionType, OptionType.decode m.encode = m)
      ∧ (∀ m : OptionStyle, OptionStyle.decode m.encode = m)
      ∧ (∀ m : OptionExercise, OptionExercise.decode m.encode = m)
      ∧ (∀ m : OptionMoneyness, OptionMoneyness.decode m.encode = m))
    ∧ (OptionType.declared.map (fun m => OptionType.decode m.encode) = OptionType.declared
      ∧ OptionStyle.declared.map (fun m => OptionStyle.decode m.encode) = OptionStyle.declared
      ∧ OptionExercise.declared.map (fun m => OptionExercise.decode m.encode)
          = OptionExercise.declared
      ∧ OptionMoneyness.declared.map (fun m => OptionMoneyness.decode m.encode)
          = OptionMoneyness.declared)
    ∧ ((OptionType.decode "call" = OptionTypeCall ∧ OptionTypeCall.encode = "call")
      ∧ (OptionType.decode "put" = OptionTypePut ∧ OptionTypePut.encode = "put")
      ∧ (OptionStyle.decode "american" = OptionStyleAmerican
          ∧ OptionStyleAmerican.encode = "american")
      ∧ (OptionStyle.decode "european" = OptionStyleEuropean
          ∧ OptionStyleEuropean.encode = "european")
      ∧ (OptionExercise.decode "long" = OptionExerciseLong
          ∧ OptionExerciseLong.encode = "long")
      ∧ (OptionExercise.decode "short" = OptionExerciseShort
          ∧ OptionExerciseShort.encode = "short")
      ∧ (OptionMoneyness.decode "ITM" = OptionMoneynessInTheMoney
          ∧ OptionMoneynessInTheMoney.encode = "ITM")
      ∧ (OptionMoneyness.decode "OTM" = OptionMoneynessOutOfTheMoney
          ∧ OptionMoneynessOutOfTheMoney.encode = "OTM")
      ∧ (OptionMoneyness.decode "ATM" = OptionMoneynessAtTheMoney
          ∧ OptionMoneynessAtTheMoney.encode = "ATM")) := by
  refine ⟨⟨fun _ => rfl, fun _ => rfl, fun _ => rfl, fun _ => rfl⟩, ⟨rfl, rfl, rfl, rfl⟩, ?_⟩
  exact ⟨⟨rfl, rfl⟩, ⟨rfl, rfl⟩, ⟨rfl, rfl⟩, ⟨rfl, rfl⟩, ⟨rfl, rfl⟩, ⟨rfl, rfl⟩, ⟨rfl, rfl⟩,
    ⟨rfl, rfl⟩, ⟨rfl, rfl⟩⟩

/-! ## Exclusivity -/

/-- C4: within each enumeration the declared members are pairwise unequal
(the list of declared members has no repetition, and each named pair is
unequal under `==`), and each member compares equal to itself. -/
theorem declared_members_exclusive :
    (OptionType.declared.Nodup ∧ OptionStyle.declared.Nodup
      ∧ OptionExercise.declared.Nodup ∧ OptionMoneyness.declared.Nodup)
    ∧ (OptionTypeCall ≠ OptionTypePut
      ∧ OptionStyleAmerican ≠ OptionStyleEuropean
      ∧ OptionExerciseLong ≠ OptionExerciseShort
      ∧ OptionMoneynessInTheMoney ≠ OptionMoneynessOutOfTheMoney
      ∧ OptionMoneynessInTheMoney ≠ OptionMoneynessAtTheMoney
      ∧ OptionMoneynessOutOfTheMoney ≠ OptionMoneynessAtTheMoney)
    ∧ ((OptionTypeCall == OptionTypePut) = false
      ∧ (OptionTypePut == OptionTypeCall) = false
      ∧ (OptionStyleAmerican == OptionStyleEuropean) = false
      ∧ (OptionStyleEuropean == OptionStyleAmerican) = false
      ∧ (OptionExerciseLong == OptionExerciseShort) = false
      ∧ (OptionExerciseShort == OptionExerciseLong) = false
      ∧ (OptionMoneynessInTheMoney == OptionMoneynessOutOfTheMoney) = false
      ∧ (OptionMoneynessOutOfTheMoney == OptionMoneynessInTheMoney) = false
      ∧ (OptionMoneynessInTheMoney == OptionMoneynessAtTheMoney) = false
      ∧ (OptionMoneynessAtTheMoney == OptionMoneynessInTheMoney) = false
      ∧ (OptionMoneynessOutOfTheMoney == OptionMoneynessAtTheMoney) = false
      ∧ (OptionMoneynessAtTheMoney == OptionMoneynessOutOfTheMoney) = false)
    ∧ (OptionType.declared.all (fun m => m == m) = true
      ∧ OptionStyle.declared.all (fun m => m == m) = true
      ∧ OptionExercise.declared.all (fun m => m == m) = true
      ∧ OptionMoneyness.declared.all (fun m => m == m) = true)
    ∧ (OptionType.declared.all
          (fun a => OptionType.declared.all (fun b => (a == b) == (a.encode == b.encode))) = true
      ∧ OptionStyle.declared.all
          (fun a => OptionStyle.declared.all (fun b => (a == b) == (a.encode == b.encode))) = true
      ∧ OptionExercise.declared.all
          (fun a => OptionExercise.declared.all
            (fun b => (a == b) == (a.encode == b.encode))) = true
      ∧ OptionMoneyness.declared.all
          (fun a => OptionMoneyness.declared.all
            (fun b => (a == b) == (a.encode == b.encode))) = true) := by
  refine ⟨⟨by decide, by decide, by decide, by decide⟩, ?_, ?_, ⟨by decide, by decide,
    by decide, by decide⟩, ⟨by decide, by decide, by decide, by decide⟩⟩
  · exact ⟨by decide, by decide, by decide, by decide, by decide, by decide⟩
  · exact ⟨by decide, by decide, by decide, by decide, by decide, by decide, by decide,
      by decide, by decide, by decide, by decide, by decide⟩

/-! ## Exact, case-sensitive membership -/

/-- C5: a string decodes to a declared member of an enumeration exactly when
it is equal to one of that enumeration's declared literals; the values built
from `CALL`, `itm`, `atm` and `bermudan` are declared members of none of the
four enumerations, while the value built from `ATM` is
OptionMoneynessAtTheMoney. -/
theorem membership_exact_case_sensitive :
    ((∀ s, OptionType.decode s ∈ OptionType.declared ↔ s = "call" ∨ s = "put")
      ∧ (∀ s, OptionStyle.decode s ∈ OptionStyle.declared ↔ s = "american" ∨ s = "european")
      ∧ (∀ s, OptionExercise.decode s ∈ OptionExercise.declared ↔ s = "long" ∨ s = "short")
      ∧ (∀ s, OptionMoneyness.decode s ∈ OptionMoneyness.declared
            ↔ s = "ITM" ∨ s = "OTM" ∨ s = "ATM"))
    ∧ (∀ s ∈ ["CALL", "itm", "atm", "bermudan"],
        OptionType.decode s ∉ OptionType.declared
        ∧ OptionStyle.decode s ∉ OptionStyle.declared
        ∧ OptionExercise.decode s ∉ OptionExercise.declared
        ∧ OptionMoneyness.decode s ∉ OptionMoneyness.declared)
    ∧ (OptionType.decode "CALL" ≠ OptionTypeCall
      ∧ OptionMoneyness.decode "itm" ≠ OptionMoneynessInTheMoney
      ∧ OptionMoneyness.decode "atm" ≠ OptionMoneynessAtTheMoney)
    ∧ OptionMoneyness.decode "ATM" = OptionMoneynessAtTheMoney := by
  refine ⟨⟨?_, ?_, ?_, ?_⟩, by decide, ⟨by decide, by decide, by decide⟩, rfl⟩
  · intro s
    simp [OptionType.decode, OptionType.declared, OptionTypeCall, OptionTypePut]
  · intro s
    simp [OptionStyle.decode, OptionStyle.declared, OptionStyleAmerican, OptionStyleEuropean]
  · intro s
    simp [OptionExercise.decode, OptionExercise.declared, OptionExerciseLong,
      OptionExerciseShort]
  · intro s
    simp [OptionMoneyness.decode, OptionMoneyness.declared, OptionMoneynessInTheMoney,
      OptionMoneynessOutOfTheMoney, OptionMoneynessAtTheMoney]

/-! ## Distinctness across enumerations -/

/-- C6: the nine declared tokens are exactly `call`, `put`, `american`,
`european`, `long`, `short`, `ITM`, `OTM`, `ATM`; they are pairwise distinct
as strings and remain pairwise distinct after lower-casing; the token lists of
any two different enumerations are disjoint, also after lower-casing; and any
string occurs at most once among all declared tokens. -/
theorem tokens_pairwise_distinct :
    allTokens = ["call", "put", "american", "european", "long", "short", "ITM", "OTM", "ATM"]
    ∧ allTokens.Nodup
    ∧ (allTokens.map String.toLower).Nodup
    ∧ tokenSets.Pairwise List.Disjoint
    ∧ (tokenSets.map (List.map String.toLower)).Pairwise List.Disjoint
    ∧ tokenSets.flatten = allTokens
    ∧ (∀ s, allTokens.count s ≤ 1)
    ∧ (∀ s, (allTokens.map String.toLower).count s ≤ 1) := by
  have hl : (allTokens.map lower).Nodup := by decide
  have hd : (tokenSets.map (List.map lower)).Pairwise List.Disjoint := by
    simp [tokenSets, List.Disjoint]
    decide
  rw [map_lower_eq] at hl
  have hm : List.map lower = List.map String.toLower := funext map_lower_eq
  rw [hm] at hd
  refine ⟨allTokens_eq, by decide, hl, ?_, hd, by decide, ?_, ?_⟩
  · simp [tokenSets, List.Disjoint]
    decide
  · intro s
    exact List.nodup_iff_count_le_one.mp (by decide) s
  · intro s
    exact List.nodup_iff_count_le_one.mp hl s

end Model
